import Mathlib

/-!
Shallow embedding of the Metallicity_Stack_Commons analysis modules
(`analysis/error_prop.py`, `analysis/ratios.py`,
`analysis/temp_metallicity_calc.py`, `analysis/attenuation.py` and the
package `__init__.py`), together with theorems settling the frozen claims
about the uncertainty-propagation pipeline.

Conventions of the embedding:
* numpy float64 arrays become functions `ι → ℝ`, or `ι → NpVal` where the
  IEEE special values (NaN, ±inf) matter; arithmetic is idealized real
  arithmetic plus explicit special-value rules mirroring numpy's silent
  (warning-only, never-raising) semantics;
* Python exceptions (KeyError from a missing dict key, TypeError from a
  call whose arguments do not match the callee's signature) become
  `Except PyErr`;
* the module-global mutable list `dust0` (imported from the repository's
  `column_names` module) is threaded through `flux_ratios` as explicit
  state, since `flux_ratios` assigns to its entries;
* external collaborators (`chun_codes.random_pdf`,
  `chun_codes.compute_onesig_pdf`, the `cardelli` extinction-curve
  coefficients) are taken as parameters, as the spec treats them as
  opaque collaborators;
* file I/O (ASCII table and npz writes) is dropped; the written flux and
  derived-property tables are returned as components of the result.
-/

/-- Python exception raised while evaluating the embedded code: a missing
dictionary key, or a call whose arguments do not match the signature of
the function being called. -/
inductive PyErr where
  | keyError (key : String)
  | typeError (func msg : String)
  deriving DecidableEq, Repr

/-- A numpy float64 value: NaN, +inf, -inf, or a finite real. -/
inductive NpVal where
  | nan : NpVal
  | pinf : NpVal
  | ninf : NpVal
  | fin : ℝ → NpVal

namespace NpVal

/-- numpy elementwise negation. -/
def neg : NpVal → NpVal
  | nan => nan
  | pinf => ninf
  | ninf => pinf
  | fin v => fin (-v)

/-- numpy elementwise addition (IEEE: NaN absorbs, inf + (-inf) = NaN). -/
def add : NpVal → NpVal → NpVal
  | nan, _ => nan
  | _, nan => nan
  | pinf, ninf => nan
  | ninf, pinf => nan
  | pinf, _ => pinf
  | _, pinf => pinf
  | ninf, _ => ninf
  | _, ninf => ninf
  | fin u, fin v => fin (u + v)

/-- numpy elementwise subtraction, as addition of the negation. -/
def sub (x y : NpVal) : NpVal := x.add y.neg

/-- numpy elementwise multiplication (IEEE: NaN absorbs, inf * 0 = NaN,
signs of infinities follow the sign of the finite factor). -/
noncomputable def mul : NpVal → NpVal → NpVal
  | nan, _ => nan
  | _, nan => nan
  | pinf, pinf => pinf
  | pinf, ninf => ninf
  | ninf, pinf => ninf
  | ninf, ninf => pinf
  | pinf, fin v => if v < 0 then ninf else if v = 0 then nan else pinf
  | fin v, pinf => if v < 0 then ninf else if v = 0 then nan else pinf
  | ninf, fin v => if v < 0 then pinf else if v = 0 then nan else ninf
  | fin v, ninf => if v < 0 then pinf else if v = 0 then nan else ninf
  | fin u, fin v => fin (u * v)

/-- numpy elementwise division.  Division by zero yields a signed
infinity (numpy emits a RuntimeWarning but does not raise), 0/0 and
inf/inf yield NaN. -/
noncomputable def div : NpVal → NpVal → NpVal
  | nan, _ => nan
  | _, nan => nan
  | pinf, pinf => nan
  | pinf, ninf => nan
  | ninf, pinf => nan
  | ninf, ninf => nan
  | pinf, fin v => if v < 0 then ninf else pinf
  | ninf, fin v => if v < 0 then pinf else ninf
  | fin _, pinf => fin 0
  | fin _, ninf => fin 0
  | fin u, fin v =>
      if v = 0 then (if u = 0 then nan else if 0 < u then pinf else ninf)
      else fin (u / v)

/-- numpy elementwise log10: NaN on negative arguments, -inf at zero
(RuntimeWarning only, never an exception). -/
noncomputable def log10 : NpVal → NpVal
  | nan => nan
  | pinf => pinf
  | ninf => nan
  | fin v => if v < 0 then nan else if v = 0 then ninf else fin (Real.logb 10 v)

/-- numpy elementwise `10 ** x`. -/
noncomputable def pow10 : NpVal → NpVal
  | nan => nan
  | pinf => pinf
  | ninf => fin 0
  | fin v => fin ((10 : ℝ) ^ v)

/-- numpy elementwise `x ** e` for a fixed negative non-integer exponent
`e` (the two source uses are `** (-1 * 0.98062)` and `** (-0.5)`):
a negative base yields NaN, a zero base yields +inf (RuntimeWarning
only), `(±inf) ** e = 0`. -/
noncomputable def powNC : NpVal → ℝ → NpVal
  | nan, _ => nan
  | pinf, _ => fin 0
  | ninf, _ => fin 0
  | fin v, e => if v < 0 then nan else if v = 0 then pinf else fin (v ^ e)

end NpVal

instance : Neg NpVal := ⟨NpVal.neg⟩
instance : Add NpVal := ⟨NpVal.add⟩
instance : Sub NpVal := ⟨NpVal.sub⟩
noncomputable instance : Mul NpVal := ⟨NpVal.mul⟩
noncomputable instance : Div NpVal := ⟨NpVal.div⟩

/-!
Embedding of `analysis/temp_metallicity_calc.py`.

The reddening coefficients `k_4363 = k_dict['OIII_4363']` and
`k_5007 = k_dict['OIII_5007']` are produced at package startup by the
external `chun_codes.cardelli` extinction-curve function applied to the
fixed wavelength table in `__init__.py`; being external they are taken
as explicit real parameters here.
-/

/-- Constant `a = 13205` of `temp_metallicity_calc.py` (Nicholls et al. 2014). -/
def tmc_a : ℝ := 13205

/-- Constant `b = 0.92506` of `temp_metallicity_calc.py`. -/
def tmc_b : ℝ := 0.92506

/-- Constant `c = 0.98062` of `temp_metallicity_calc.py`. -/
def tmc_c : ℝ := 0.98062

/-- `R_calculation(OIII4363, OIII5007, EBV)` from
`temp_metallicity_calc.py` lines 16-30:
`R_value = OIII4363 / (OIII5007 * (1 + 1 / 3.1)) * 10 ** (0.4 * EBV * (k_4363 - k_5007))`.
The signature has no default for `EBV`: a two-argument call raises a
TypeError in Python.  `k_4363`/`k_5007` are the externally computed
reddening coefficients. -/
noncomputable def R_calculation (OIII4363 OIII5007 EBV k_4363 k_5007 : ℝ) : ℝ :=
  OIII4363 / (OIII5007 * (1 + 1 / 3.1)) * (10 : ℝ) ^ (0.4 * EBV * (k_4363 - k_5007))

/-- `temp_calculation(R)` from `temp_metallicity_calc.py` lines 33-48:
`T_e = a * (-np.log10(R) - b) ** (-1 * c)`, elementwise on a numpy
array, with numpy's silent special-value semantics.  The signature has
no `EBV` parameter. -/
noncomputable def temp_calculation (R : NpVal) : NpVal :=
  NpVal.fin tmc_a * ((-(R.log10) - NpVal.fin tmc_b).powNC (-1 * tmc_c))

/-- The five-entry mapping returned by `metallicity_calculation`.  The
keys are `remove_from_list(temp_metal_names0, ['T_e'])` taken from the
repository's `column_names` module (absent from `src/`); only the five
values and their order are used here, so the mapping is embedded as a
record with one field per key, in the source's zip order. -/
structure MetalDict (n : ℕ) where
  com_O_log : Fin n → NpVal
  O_s_ion_log : Fin n → NpVal
  O_d_ion_log : Fin n → NpVal
  O_s_ion : Fin n → NpVal
  O_d_ion : Fin n → NpVal

/-- `metallicity_calculation(T_e, TWO_BETA, THREE_BETA, det3=None)` from
`temp_metallicity_calc.py` lines 51-93.  Arrays are functions
`Fin n → NpVal`; `det3` is the optional index array (`None` selects
`np.arange(n_sample)`); the `np.zeros` initializations followed by
fancy-indexed assignment at `det3` become if-then-else on membership.
`O_s_ion = 10 ** O_s_ion_log` etc. exponentiate the whole array, not
just the `det3` entries, exactly as in the source. -/
noncomputable def metallicity_calculation {n : ℕ}
    (T_e TWO_BETA THREE_BETA : Fin n → NpVal)
    (det3 : Option (List (Fin n))) : MetalDict n :=
  let det3 : List (Fin n) :=
    match det3 with
    | none => List.finRange n
    | some d3 => d3
  let t_3 : Fin n → NpVal := fun i =>
    if i ∈ det3 then T_e i * NpVal.fin 1e-4 else NpVal.fin 0
  let t_2 : Fin n → NpVal := fun i =>
    if i ∈ det3 then NpVal.fin 0.7 * t_3 i + NpVal.fin 0.17 else NpVal.fin 0
  let x2 : Fin n → NpVal := fun i =>
    if i ∈ det3 then NpVal.fin 1e-4 * NpVal.fin 1e3 * ((t_2 i).powNC (-0.5))
    else NpVal.fin 0
  let O_s_ion_log : Fin n → NpVal := fun i =>
    if i ∈ det3 then
      (TWO_BETA i).log10 + NpVal.fin 5.961 + NpVal.fin 1.676 / t_2 i
        - NpVal.fin 0.4 * (t_2 i).log10 - NpVal.fin 0.034 * t_2 i
        + (NpVal.fin 1 + NpVal.fin 1.35 * x2 i).log10 - NpVal.fin 12
    else NpVal.fin 0
  let O_d_ion_log : Fin n → NpVal := fun i =>
    if i ∈ det3 then
      (THREE_BETA i).log10 + NpVal.fin 6.200 + NpVal.fin 1.251 / t_3 i
        - NpVal.fin 0.55 * (t_3 i).log10 - NpVal.fin 0.014 * t_3 i
        - NpVal.fin 12
    else NpVal.fin 0
  let O_s_ion : Fin n → NpVal := fun i => (O_s_ion_log i).pow10
  let O_d_ion : Fin n → NpVal := fun i => (O_d_ion_log i).pow10
  let com_O : Fin n → NpVal := fun i => O_s_ion i + O_d_ion i
  let com_O_log : Fin n → NpVal := fun i => (com_O i).log10 + NpVal.fin 12
  { com_O_log := com_O_log
    O_s_ion_log := O_s_ion_log
    O_d_ion_log := O_d_ion_log
    O_s_ion := O_s_ion
    O_d_ion := O_d_ion }

/-!
Embedding of `analysis/ratios.py`.
-/

/-- Modelled from the spec: the package `__init__.py` constant `OIII_r`
imported by `ratios.py` is absent from `src/`; per the spec the
`three_beta` and `logO32` ratios encode the fixed 3.1-to-1 doublet ratio
between the 5007 and 4959 lines, so `OIII_r = 3.1`. -/
def OIII_r : ℝ := 3.1

/-- The in-place mutation `dust0[0] += '_composite'; dust0[1] += '_composite'`
performed by `flux_ratios` (lines 24-25 of `ratios.py`) on the
module-global list `dust0`.  (Python would raise an IndexError on a list
with fewer than two entries; the repository's `column_names.dust0` has at
least two.) -/
def dustComposite (dust0 : List String) : List String :=
  let d1 := dust0.set 0 (dust0.getD 0 "" ++ "_composite")
  d1.set 1 (d1.getD 1 "" ++ "_composite")

/-- The flux mapping passed to `flux_ratios`: one optional array per
line label of the fixed vocabulary `line_name` of `__init__.py`
(`OII_3727, HDELTA, HGAMMA, OIII_4363, HBETA, OIII_4958, OIII_5007`).
A `none` field is an absent dict key; `ratios.py` looks keys up through
`line_name_short` (absent from `src/`), modelled from the spec as the
evident short-label-to-line-name correspondence. -/
structure FluxDict (ι : Type) where
  OII : Option (ι → ℝ)
  HD : Option (ι → ℝ)
  HG : Option (ι → ℝ)
  OIII4363 : Option (ι → ℝ)
  Hb : Option (ι → ℝ)
  OIII4958 : Option (ι → ℝ)
  OIII : Option (ι → ℝ)

/-- The mapping returned by `flux_ratios`.  Its keys come from
`column_names.bin_ratios0` and `column_names.dust0` (absent from
`src/`); modelled from the spec as the fixed key set
`two_beta, three_beta, logR23, logO32, HgHb, HdHb, R`, one record field
per key, with `none` for a key not placed in the dict. -/
structure RatioDict (ι : Type) where
  two_beta : ι → ℝ
  three_beta : ι → ℝ
  logR23 : ι → ℝ
  logO32 : ι → ℝ
  HgHb : Option (ι → ℝ)
  HdHb : Option (ι → ℝ)
  R : Option (ι → ℝ)

/-- `flux_ratios(flux_dict, binned_data=False, get_R=True)` from
`ratios.py` lines 8-62.  The index type `ι` covers both a 1-D nominal
vector and a 2-D (object, draw) ensemble.  The global list `dust0` is
threaded as state: with `binned_data=True` lines 24-25 mutate it before
anything else.  With `get_R=True`, line 60 calls
`R_calculation(OIII4363, OIII)` with only two arguments although
`R_calculation(OIII4363, OIII5007, EBV)` has three required parameters,
so Python raises a TypeError at the call site (after the line-59 lookup
of the `OIII_4363` key, which raises a KeyError if absent). -/
noncomputable def flux_ratios {ι : Type} (flux_dict : FluxDict ι)
    (binned_data get_R : Bool) (dust0 : List String) :
    Except PyErr (RatioDict ι) × List String :=
  let dust0' := if binned_data then dustComposite dust0 else dust0
  let body : Except PyErr (RatioDict ι) :=
    match flux_dict.OII with
    | none => .error (.keyError "OII_3727")
    | some OII =>
      match flux_dict.OIII with
      | none => .error (.keyError "OIII_5007")
      | some OIII =>
        match flux_dict.Hb with
        | none => .error (.keyError "HBETA")
        | some Hb =>
          let two_beta : ι → ℝ := fun i => OII i / Hb i
          let three_beta : ι → ℝ := fun i => (1 + 1 / OIII_r) * OIII i / Hb i
          let logR23 : ι → ℝ := fun i => Real.logb 10 (two_beta i + three_beta i)
          let logO32 : ι → ℝ := fun i =>
            Real.logb 10 ((1 + 1 / OIII_r) * OIII i / OII i)
          let HgHb : Option (ι → ℝ) :=
            flux_dict.HG.map (fun HG => fun i => HG i / Hb i)
          let HdHb : Option (ι → ℝ) :=
            flux_dict.HD.map (fun HD => fun i => HD i / Hb i)
          if get_R then
            match flux_dict.OIII4363 with
            | none => .error (.keyError "OIII_4363")
            | some _ =>
                .error (.typeError "R_calculation"
                  "missing 1 required positional argument EBV")
          else
            .ok { two_beta := two_beta, three_beta := three_beta
                  logR23 := logR23, logO32 := logO32
                  HgHb := HgHb, HdHb := HdHb, R := none }
  (body, dust0')

/-!
Embedding of `analysis/attenuation.py` (the parts the claims touch).
-/

/-- Balmer decrement Case B constant `HgHb_CaseB = 0.468` from
`attenuation.py` line 11. -/
def HgHb_CaseB : ℝ := 0.468

/-- The E(B-V) formula at line 45 of `attenuation.py`:
`EBV = -2.5 * np.log10(HgHb / HgHb_CaseB) / (k_HGAMMA - k_HBETA)`.
`k_HGAMMA`/`k_HBETA` come from the external `cardelli` lookup and are
taken as parameters.  Note the enclosing function in this snapshot is
`compute_EBV(fitspath, use_revised=False)`: it reads the Hgamma/Hbeta
fluxes from an ASCII table at `fitspath` and writes the result into a
table; it does not accept a flux-ratio array or a `source` keyword. -/
noncomputable def compute_EBV_formula (HgHb k_HGAMMA k_HBETA : ℝ) : ℝ :=
  -2.5 * Real.logb 10 (HgHb / HgHb_CaseB) / (k_HGAMMA - k_HBETA)

/-!
Embedding of `analysis/error_prop.py` (`fluxes_derived_prop`), for
`binned_data=True`.  File reads become explicit table arguments; file
and npz writes are dropped, with the written revised tables returned as
result components.  The external samplers `chun_codes.random_pdf` and
`chun_codes.compute_onesig_pdf` are parameters.
-/

/-- The emission-line fit table (`bin_fit` file): the `bin_ID` column
plus, for each of the 7 entries of `line_name`, the
`<line>_Flux_Gaussian` and `<line>_RMS` columns. -/
structure FluxTab (n : ℕ) where
  bin_ID : Fin n → ℤ
  flux : Fin 7 → Fin n → ℝ
  rms : Fin 7 → Fin n → ℝ

/-- The derived-property table (`bin_derived_prop` file): one column per
entry of `column_names.temp_metal_names0` (six quantities: `T_e` plus
the five metallicity-family columns; names live in the `column_names`
module absent from `src/`). -/
def PropTab (n : ℕ) : Type := Fin 6 → Fin n → ℝ

/-- Line 73 of `error_prop.py`:
`detect_idx = np.where((detection == 1))[0]` over the validation table's
`Detection` column.  Detection flags are the exact table values
(0, 0.5, 1), embedded as rationals so the comparison is exact. -/
def detectIdx {n : ℕ} (detection : Fin n → ℚ) : List (Fin n) :=
  (List.finRange n).filter (fun i => decide (detection i = 1))

/-- numpy fancy-indexed assignment `col[idx] = vals` (lines 138 and 201
of `error_prop.py`): positionally paired scatter of `vals` into `col` at
the indices `idx`. -/
def scatter {α : Type} {n : ℕ} (col : Fin n → α) :
    List (Fin n) → List α → Fin n → α
  | [], _ => col
  | _, [] => col
  | i :: is, v :: vs => scatter (Function.update col i v) is vs

/-- Lines 164-167 of `error_prop.py`:

`if apply_dust: EBV = compute_EBV(flux_ratios_dict['HgHb'], source='HgHb')`
`else: EBV = None`.

The dict lookup of `'HgHb'` happens first (KeyError if that ratio was
not built); the call then passes a flux-ratio array and a `source`
keyword to `compute_EBV(fitspath, use_revised=False)`, whose signature
accepts neither, so Python raises a TypeError before the callee body
runs.  With `apply_dust=False`, `EBV` is simply `None`. -/
def ebvStep {ι : Type} (HgHb : Option (ι → ℝ)) (apply_dust : Bool) :
    Except PyErr (Option (ι → ℝ)) :=
  if apply_dust then
    match HgHb with
    | none => .error (.keyError "HgHb")
    | some _ =>
        .error (.typeError "compute_EBV" "unexpected keyword argument source")
  else
    .ok none

/-- Output of the `raw=True` path: the dict written as the derived
properties table at lines 106-118 (`bin_ID`, the flux ratios, `T_e`,
and the metallicity mapping). -/
structure RawOut (n : ℕ) where
  bin_ID : Fin n → ℤ
  ratios : RatioDict (Fin n)
  Te : Fin n → NpVal
  metal : MetalDict n

/-- The `raw=True` path of `fluxes_derived_prop` (lines 89-118 of
`error_prop.py`): build `flux_dict` from all rows of the flux table
(index `aa` of `line_name` in table order), call
`flux_ratios(flux_dict)` with its defaults (`binned_data=False`,
`get_R=True`), then `Te = temp_calculation(flux_ratios_dict['R'])` and
`metallicity_calculation(Te, two_beta, three_beta)` with no `det3`.
Exceptions propagate; `dust0` state is threaded like in `flux_ratios`. -/
noncomputable def fluxes_derived_prop_raw {n : ℕ} (flux_tab0 : FluxTab n)
    (dust0 : List String) : Except PyErr (RawOut n) × List String :=
  let flux_dict : FluxDict (Fin n) :=
    { OII := some (flux_tab0.flux 0)
      HD := some (flux_tab0.flux 1)
      HG := some (flux_tab0.flux 2)
      OIII4363 := some (flux_tab0.flux 3)
      Hb := some (flux_tab0.flux 4)
      OIII4958 := some (flux_tab0.flux 5)
      OIII := some (flux_tab0.flux 6) }
  match flux_ratios flux_dict false true dust0 with
  | (.error e, d) => (.error e, d)
  | (.ok frd, d) =>
    match frd.R with
    | none => (.error (.keyError "R"), d)
    | some Rv =>
      let Te : Fin n → NpVal := fun i => temp_calculation (.fin (Rv i))
      let metal := metallicity_calculation Te
        (fun i => .fin (frd.two_beta i)) (fun i => .fin (frd.three_beta i)) none
      (.ok { bin_ID := flux_tab0.bin_ID, ratios := frd, Te := Te
             metal := metal }, d)

/-- Result of the randomized (non-raw) path: the outcome (which is an
exception in this snapshot — see `fluxes_derived_prop_nonraw`), the
revised flux table written at line 146 before the derived-property
stage, the derived-property table (line 201 would update it at
`detect_idx` rows only), and the final `dust0` state. -/
structure NonRawResult (n : ℕ) where
  result : Except PyErr Unit
  fluxTabOut : FluxTab n
  propTabOut : PropTab n
  dustOut : List String

/-- The randomized (`raw=False`) path of `fluxes_derived_prop` (lines
119-221 of `error_prop.py`), `binned_data=True`:

1. `detect_idx` from the validation table (line 73); `flux_tab` /
   `prop_tab` are the detected-row subsets (lines 79-80).
2. Per line `aa`, `random_pdf(flux_tab[flux], flux_tab[rms], seed_i=aa,
   n_iter=1000)` then `compute_onesig_pdf(flux_pdf, flux_tab[flux],
   usepeak=True)`; the peaks overwrite `flux_tab0` at `detect_idx`
   (line 138) and the revised flux table is written (line 146).
3. `flux_ratios(flux_pdf_dict)` (line 158) — raises TypeError inside
   (two-argument `R_calculation` call), so the run aborts here.
4. Were a ratio dict returned, line 165 would call `compute_EBV` with an
   unexpected `source` keyword when `apply_dust` (TypeError), and line
   179 `temp_calculation(..., EBV=EBV)` passes an `EBV` keyword that
   `temp_calculation(R)` does not accept (TypeError) — so no later line
   of the derived-property section is reachable in any case.

`random_pdf`/`compute_onesig_pdf` are external `chun_codes`
collaborators, passed as opaque parameters (`compute_onesig_pdf`
returns the pair `(err, peak)`). -/
noncomputable def fluxes_derived_prop_nonraw {n : ℕ}
    (random_pdf : (m niter : ℕ) → (Fin m → ℝ) → (Fin m → ℝ) → ℕ →
      (Fin m → Fin niter → ℝ))
    (compute_onesig_pdf : (m niter : ℕ) → (Fin m → Fin niter → ℝ) →
      (Fin m → ℝ) → ((Fin m → ℝ × ℝ) × (Fin m → ℝ)))
    (flux_tab0 : FluxTab n) (prop_tab0 : PropTab n)
    (detection : Fin n → ℚ) (apply_dust : Bool) (dust0 : List String) :
    NonRawResult n :=
  let detect_idx := detectIdx detection
  let d := detect_idx.length
  let flux_tab : Fin 7 → Fin d → ℝ := fun l j => flux_tab0.flux l (detect_idx.get j)
  let rms_tab : Fin 7 → Fin d → ℝ := fun l j => flux_tab0.rms l (detect_idx.get j)
  let flux_pdf : Fin 7 → Fin d → Fin 1000 → ℝ := fun aa =>
    random_pdf d 1000 (flux_tab aa) (rms_tab aa) aa.val
  let peak : Fin 7 → Fin d → ℝ := fun aa =>
    (compute_onesig_pdf d 1000 (flux_pdf aa) (flux_tab aa)).2
  let flux_tab0' : FluxTab n :=
    { flux_tab0 with
      flux := fun l => scatter (flux_tab0.flux l) detect_idx (List.ofFn (peak l)) }
  let flux_pdf_dict : FluxDict (Fin d × Fin 1000) :=
    { OII := some (fun p => flux_pdf 0 p.1 p.2)
      HD := some (fun p => flux_pdf 1 p.1 p.2)
      HG := some (fun p => flux_pdf 2 p.1 p.2)
      OIII4363 := some (fun p => flux_pdf 3 p.1 p.2)
      Hb := some (fun p => flux_pdf 4 p.1 p.2)
      OIII4958 := some (fun p => flux_pdf 5 p.1 p.2)
      OIII := some (fun p => flux_pdf 6 p.1 p.2) }
  match flux_ratios flux_pdf_dict false true dust0 with
  | (.error e, d') =>
      { result := .error e, fluxTabOut := flux_tab0'
        propTabOut := prop_tab0, dustOut := d' }
  | (.ok frd, d') =>
      match ebvStep frd.HgHb apply_dust with
      | .error e =>
          { result := .error e, fluxTabOut := flux_tab0'
            propTabOut := prop_tab0, dustOut := d' }
      | .ok _ =>
          { result := .error (.typeError "temp_calculation"
              "unexpected keyword argument EBV")
            fluxTabOut := flux_tab0', propTabOut := prop_tab0, dustOut := d' }

/-!
Concrete fixtures used by the witness and counterexample theorems.
-/

/-- A flux mapping with no lines present (every dict key absent). -/
def testEmptyFluxDict : FluxDict (Fin 1) :=
  { OII := none, HD := none, HG := none, OIII4363 := none
    Hb := none, OIII4958 := none, OIII := none }

/-- A one-bin flux table with all fluxes 100 and all RMS values 1. -/
noncomputable def testFluxTab : FluxTab 1 :=
  { bin_ID := fun _ => 0, flux := fun _ _ => 100, rms := fun _ _ => 1 }

/-- A one-bin derived-property table with all entries 0. -/
noncomputable def testPropTab : PropTab 1 := fun _ _ => 0

/-- A degenerate stand-in for the external `chun_codes.random_pdf`
sampler: every draw equals 100. -/
noncomputable def testRandomPdf : (m niter : ℕ) → (Fin m → ℝ) → (Fin m → ℝ) →
    ℕ → (Fin m → Fin niter → ℝ) :=
  fun _ _ _ _ _ _ _ => 100

/-- A degenerate stand-in for the external `chun_codes.compute_onesig_pdf`
reducer: zero errors, peaks at 100. -/
noncomputable def testOneSig : (m niter : ℕ) → (Fin m → Fin niter → ℝ) →
    (Fin m → ℝ) → ((Fin m → ℝ × ℝ) × (Fin m → ℝ)) :=
  fun _ _ _ _ => (fun _ => (0, 0), fun _ => 100)

/-- A one-object flux mapping with `OII=100`, `OIII=300`, `Hb=50`,
`OIII_4363=1.5` (the spec's scenario input), all lines present. -/
noncomputable def testFullFluxDict : FluxDict (Fin 1) :=
  { OII := some (fun _ => 100), HD := some (fun _ => 50)
    HG := some (fun _ => 25), OIII4363 := some (fun _ => 1.5)
    Hb := some (fun _ => 50), OIII4958 := some (fun _ => 100)
    OIII := some (fun _ => 300) }

/-!
Helper lemmas.
-/

namespace NpVal

@[simp] theorem nan_add (y : NpVal) : nan + y = nan := by cases y <;> rfl

@[simp] theorem add_nan (x : NpVal) : x + nan = nan := by cases x <;> rfl

@[simp] theorem nan_sub (y : NpVal) : nan - y = nan := by cases y <;> rfl

@[simp] theorem sub_nan (x : NpVal) : x - nan = nan := by cases x <;> rfl

@[simp] theorem nan_mul (y : NpVal) : nan * y = nan := by cases y <;> rfl

@[simp] theorem mul_nan (x : NpVal) : x * nan = nan := by cases x <;> rfl

@[simp] theorem nan_div (y : NpVal) : nan / y = nan := by cases y <;> rfl

@[simp] theorem div_nan (x : NpVal) : x / nan = nan := by cases x <;> rfl

@[simp] theorem log10_nan : nan.log10 = nan := rfl

@[simp] theorem pow10_nan : nan.pow10 = nan := rfl

@[simp] theorem powNC_nan (e : ℝ) : nan.powNC e = nan := rfl

@[simp] theorem fin_add_fin (u v : ℝ) : fin u + fin v = fin (u + v) := rfl

@[simp] theorem fin_mul_fin (u v : ℝ) : fin u * fin v = fin (u * v) := rfl

@[simp] theorem neg_fin (v : ℝ) : -(fin v) = fin (-v) := rfl

@[simp] theorem fin_sub_fin (u v : ℝ) : fin u - fin v = fin (u + -v) := rfl

end NpVal

/-- Frame property of numpy fancy-indexed assignment: positions outside
the index list keep their previous value. -/
theorem scatter_frame {α : Type} {n : ℕ} :
    ∀ (idx : List (Fin n)) (col : Fin n → α) (vals : List α) (k : Fin n),
      k ∉ idx → scatter col idx vals k = col k := by
  intro idx
  induction idx with
  | nil => intro col vals k _; cases vals <;> rfl
  | cons i is ih =>
    intro col vals k h
    cases vals with
    | nil => rfl
    | cons v vs =>
      have hki : k ≠ i := fun e => h (by simp [e])
      have his : k ∉ is := fun m => h (by simp [m])
      calc scatter col (i :: is) (v :: vs) k
          = scatter (Function.update col i v) is vs k := rfl
        _ = Function.update col i v k := ih _ _ _ his
        _ = col k := by simp [Function.update, hki]

/-- Membership in the line-73 detection index subset is exactly equality
of the Detection flag with 1. -/
theorem mem_detectIdx {n : ℕ} (detection : Fin n → ℚ) (i : Fin n) :
    i ∈ detectIdx detection ↔ detection i = 1 := by
  simp [detectIdx, List.mem_filter, List.mem_finRange]

/-- Evaluation of `metallicity_calculation` at an index outside `det3`:
the two ionic logs keep their `np.zeros` value 0, but because
`O_s_ion = 10 ** O_s_ion_log` exponentiates the whole array, the linear
ionic abundances there are `10 ** 0 = 1` and the total
`12 + log10(O/H)` is `log10(2) + 12`. -/
theorem metallicity_nondet3 {n : ℕ} (T_e TWO_BETA THREE_BETA : Fin n → NpVal)
    (det3 : List (Fin n)) (i : Fin n) (h : i ∉ det3) :
    (metallicity_calculation T_e TWO_BETA THREE_BETA (some det3)).O_s_ion_log i
        = NpVal.fin 0 ∧
    (metallicity_calculation T_e TWO_BETA THREE_BETA (some det3)).O_d_ion_log i
        = NpVal.fin 0 ∧
    (metallicity_calculation T_e TWO_BETA THREE_BETA (some det3)).O_s_ion i
        = NpVal.fin 1 ∧
    (metallicity_calculation T_e TWO_BETA THREE_BETA (some det3)).O_d_ion i
        = NpVal.fin 1 ∧
    (metallicity_calculation T_e TWO_BETA THREE_BETA (some det3)).com_O_log i
        = NpVal.fin (Real.logb 10 2 + 12) := by
  refine ⟨?_, ?_, ?_, ?_, ?_⟩
  · simp only [metallicity_calculation]
    rw [if_neg h]
  · simp only [metallicity_calculation]
    rw [if_neg h]
  · simp only [metallicity_calculation]
    rw [if_neg h]
    simp [NpVal.pow10, Real.rpow_zero]
  · simp only [metallicity_calculation]
    rw [if_neg h]
    simp [NpVal.pow10, Real.rpow_zero]
  · simp only [metallicity_calculation]
    rw [if_neg h, if_neg h]
    simp only [NpVal.pow10, Real.rpow_zero, NpVal.fin_add_fin]
    norm_num [NpVal.log10]

/-- With the `OII_3727`, `OIII_5007`, `HBETA` and `OIII_4363` keys all
present, `flux_ratios` with `get_R=True` always raises the TypeError of
the two-argument `R_calculation` call at line 60 of `ratios.py`. -/
theorem flux_ratios_R_typeerror {ι : Type} (fd : FluxDict ι) (bd : Bool)
    (d0 : List String) (h1 : fd.OII.isSome) (h2 : fd.OIII.isSome)
    (h3 : fd.Hb.isSome) (h4 : fd.OIII4363.isSome) :
    (flux_ratios fd bd true d0).1 =
      .error (.typeError "R_calculation"
        "missing 1 required positional argument EBV") := by
  obtain ⟨o1, e1⟩ := Option.isSome_iff_exists.mp h1
  obtain ⟨o2, e2⟩ := Option.isSome_iff_exists.mp h2
  obtain ⟨o3, e3⟩ := Option.isSome_iff_exists.mp h3
  obtain ⟨o4, e4⟩ := Option.isSome_iff_exists.mp h4
  simp only [flux_ratios, e1, e2, e3, e4]
  rfl

/-!
The frozen claims.
-/

/-- C1.  The claim says the randomized pipeline's derived-property stage
applies `temp_calculation` to the R ensemble, then
`metallicity_calculation`, and completes for every valid input.  In
this snapshot it never completes: for every input the run raises the
TypeError of the two-argument `R_calculation` call inside
`flux_ratios` (line 158 of `error_prop.py` reaching line 60 of
`ratios.py`) before `temp_calculation` is ever called — and the
`temp_calculation(..., EBV=EBV)` and `metallicity_calculation(...,
EBV=EBV)` calls at lines 179-185 pass an `EBV` keyword those signatures
do not accept, so they would raise as well. -/
theorem nonraw_derived_stage_raises_typeerror :
    ∀ (n : ℕ)
      (rp : (m niter : ℕ) → (Fin m → ℝ) → (Fin m → ℝ) → ℕ →
        (Fin m → Fin niter → ℝ))
      (os : (m niter : ℕ) → (Fin m → Fin niter → ℝ) → (Fin m → ℝ) →
        ((Fin m → ℝ × ℝ) × (Fin m → ℝ)))
      (ft : FluxTab n) (pt : PropTab n) (det : Fin n → ℚ) (ad : Bool)
      (d0 : List String),
      (fluxes_derived_prop_nonraw rp os ft pt det ad d0).result =
        .error (.typeError "R_calculation"
          "missing 1 required positional argument EBV") :=
  fun _ _ _ _ _ _ _ _ => rfl

/-- C2.  The claim says the raw mode is one pass of the same flux-ratio
and physics-formula core and that the two code paths produce identical
numbers.  In this snapshot neither path produces any number: both reach
the two-argument `R_calculation` call inside `flux_ratios` and raise
the same TypeError (the raw path at line 96, the randomized path at
line 158 of `error_prop.py`), so the raw path is not a completing
single pass, and the randomized path would additionally raise on its
`EBV=` keyword calls if the ratio stage were repaired. -/
theorem raw_and_randomized_paths_both_raise :
    (∀ (n : ℕ) (ft : FluxTab n) (d0 : List String),
      (fluxes_derived_prop_raw ft d0).1 =
        .error (.typeError "R_calculation"
          "missing 1 required positional argument EBV")) ∧
    (∀ (n : ℕ)
      (rp : (m niter : ℕ) → (Fin m → ℝ) → (Fin m → ℝ) → ℕ →
        (Fin m → Fin niter → ℝ))
      (os : (m niter : ℕ) → (Fin m → Fin niter → ℝ) → (Fin m → ℝ) →
        ((Fin m → ℝ × ℝ) × (Fin m → ℝ)))
      (ft : FluxTab n) (pt : PropTab n) (det : Fin n → ℚ) (ad : Bool)
      (d0 : List String),
      (fluxes_derived_prop_nonraw rp os ft pt det ad d0).result =
        .error (.typeError "R_calculation"
          "missing 1 required positional argument EBV")) :=
  ⟨fun _ _ _ => rfl, fun _ _ _ _ _ _ _ _ => rfl⟩

/-- C3 (counterexample).  The claim says all five returned quantities
are zero outside `det3`.  At an index outside `det3` the total
`12+log(O/H)` entry is `log10(2) + 12`, not zero: `O_s_ion = 10 **
O_s_ion_log` exponentiates the whole array, turning the zero
placeholders into ones. -/
theorem metallicity_nondet3_total_not_zero :
    (metallicity_calculation (fun _ : Fin 1 => NpVal.fin 10000)
        (fun _ => NpVal.fin 2) (fun _ => NpVal.fin 8) (some [])).com_O_log 0
      ≠ NpVal.fin 0 := by
  have h := metallicity_nondet3 (fun _ : Fin 1 => NpVal.fin 10000)
    (fun _ => NpVal.fin 2) (fun _ => NpVal.fin 8) [] 0 (by simp)
  rw [h.2.2.2.2]
  intro he
  have h2 : Real.logb 10 2 + 12 = 0 := by
    simpa [NpVal.fin.injEq] using he
  have h3 : (0 : ℝ) ≤ Real.logb 10 2 :=
    Real.logb_nonneg (by norm_num) (by norm_num)
  linarith

/-- C3 (amended).  For every call of `metallicity_calculation` with an
index subset `det3`, at every index outside `det3`: the two ionic log
quantities keep the zero placeholder, but the two linear ionic
abundances equal `10 ** 0 = 1` and the total `12+log(O/H)` equals
`log10(2) + 12`; only `det3` indices receive computed abundances. -/
theorem metallicity_nondet3_values {n : ℕ}
    (T_e TWO_BETA THREE_BETA : Fin n → NpVal) (det3 : List (Fin n))
    (i : Fin n) (h : i ∉ det3) :
    (metallicity_calculation T_e TWO_BETA THREE_BETA (some det3)).O_s_ion_log i
        = NpVal.fin 0 ∧
    (metallicity_calculation T_e TWO_BETA THREE_BETA (some det3)).O_d_ion_log i
        = NpVal.fin 0 ∧
    (metallicity_calculation T_e TWO_BETA THREE_BETA (some det3)).O_s_ion i
        = NpVal.fin 1 ∧
    (metallicity_calculation T_e TWO_BETA THREE_BETA (some det3)).O_d_ion i
        = NpVal.fin 1 ∧
    (metallicity_calculation T_e TWO_BETA THREE_BETA (some det3)).com_O_log i
        = NpVal.fin (Real.logb 10 2 + 12) :=
  metallicity_nondet3 T_e TWO_BETA THREE_BETA det3 i h

/-- Witness for C3: the amended claim at the concrete one-object input
`T_e=10000, TWO_BETA=2, THREE_BETA=8` with `det3 = []`. -/
theorem metallicity_nondet3_values_witness :
    ((0 : Fin 1) ∉ ([] : List (Fin 1))) ∧
    ((metallicity_calculation (fun _ : Fin 1 => NpVal.fin 10000)
        (fun _ => NpVal.fin 2) (fun _ => NpVal.fin 8) (some [])).O_s_ion_log 0
          = NpVal.fin 0 ∧
     (metallicity_calculation (fun _ : Fin 1 => NpVal.fin 10000)
        (fun _ => NpVal.fin 2) (fun _ => NpVal.fin 8) (some [])).O_d_ion_log 0
          = NpVal.fin 0 ∧
     (metallicity_calculation (fun _ : Fin 1 => NpVal.fin 10000)
        (fun _ => NpVal.fin 2) (fun _ => NpVal.fin 8) (some [])).O_s_ion 0
          = NpVal.fin 1 ∧
     (metallicity_calculation (fun _ : Fin 1 => NpVal.fin 10000)
        (fun _ => NpVal.fin 2) (fun _ => NpVal.fin 8) (some [])).O_d_ion 0
          = NpVal.fin 1 ∧
     (metallicity_calculation (fun _ : Fin 1 => NpVal.fin 10000)
        (fun _ => NpVal.fin 2) (fun _ => NpVal.fin 8) (some [])).com_O_log 0
          = NpVal.fin (Real.logb 10 2 + 12)) :=
  ⟨by simp, metallicity_nondet3_values _ _ _ _ _ (by simp)⟩

/-- C4.  With the OII, OIII, Hbeta and OIII_4363 lines all present and
R requested, `flux_ratios` does not return a mapping containing R: it
raises the TypeError of the two-argument `R_calculation` call (line 60
of `ratios.py`).  The `R_calculation` formula itself, at `EBV = 0`,
does reduce to the uncorrected ratio
`OIII4363 / (OIII5007 * (1 + 1/3.1))`, for any reddening
coefficients. -/
theorem flux_ratios_R_requested_raises {ι : Type} (fd : FluxDict ι)
    (bd : Bool) (d0 : List String) (h1 : fd.OII.isSome)
    (h2 : fd.OIII.isSome) (h3 : fd.Hb.isSome) (h4 : fd.OIII4363.isSome) :
    (flux_ratios fd bd true d0).1 =
      .error (.typeError "R_calculation"
        "missing 1 required positional argument EBV") ∧
    (∀ OIII4363 OIII5007 k_4363 k_5007 : ℝ,
      R_calculation OIII4363 OIII5007 0 k_4363 k_5007 =
        OIII4363 / (OIII5007 * (1 + 1 / 3.1))) := by
  refine ⟨flux_ratios_R_typeerror fd bd d0 h1 h2 h3 h4, ?_⟩
  intro x y k1 k2
  simp [R_calculation]

/-- Witness for C4: the spec's scenario input `OII=100, OIII=300,
Hb=50, OIII_4363=1.5`, all lines present, `get_R=True`. -/
theorem flux_ratios_R_requested_raises_witness :
    (testFullFluxDict.OII.isSome ∧ testFullFluxDict.OIII.isSome ∧
      testFullFluxDict.Hb.isSome ∧ testFullFluxDict.OIII4363.isSome) ∧
    ((flux_ratios testFullFluxDict false true ["HgHb", "HdHb"]).1 =
        .error (.typeError "R_calculation"
          "missing 1 required positional argument EBV") ∧
     (∀ OIII4363 OIII5007 k_4363 k_5007 : ℝ,
        R_calculation OIII4363 OIII5007 0 k_4363 k_5007 =
          OIII4363 / (OIII5007 * (1 + 1 / 3.1)))) :=
  ⟨⟨rfl, rfl, rfl, rfl⟩,
    flux_ratios_R_requested_raises testFullFluxDict false ["HgHb", "HdHb"]
      rfl rfl rfl rfl⟩

/-- C5.  The claim says the dust step computes an E(B-V) ensemble from
the Hgamma/Hbeta ensemble and feeds it onward, and treats EBV as absent
otherwise.  In this snapshot, when `apply_dust` is set the step raises:
line 165 of `error_prop.py` calls `compute_EBV` with a flux-ratio array
and a `source` keyword, but `compute_EBV(fitspath, use_revised=False)`
in `attenuation.py` accepts neither.  When `apply_dust` is not set,
`EBV = None` as claimed. -/
theorem dust_step_raises_typeerror :
    (∀ (ι : Type) (arr : ι → ℝ),
      ebvStep (some arr) true =
        .error (.typeError "compute_EBV"
          "unexpected keyword argument source")) ∧
    (∀ (ι : Type) (HgHb : Option (ι → ℝ)), ebvStep HgHb false = .ok none) :=
  ⟨fun _ _ => rfl, fun _ _ => rfl⟩

/-- C6.  Frame property of the randomized run: rows of the flux table
outside `detect_idx` keep their pre-run flux values (the line-138
scatter only touches `detect_idx` rows), the RMS and bin-ID columns are
untouched entirely, and the derived-property table is returned exactly
as it was loaded (the run aborts inside `flux_ratios`, before the
line-201 update — which itself would also only touch `detect_idx`
rows). -/
theorem pipeline_frame_nondetected_rows {n : ℕ}
    (rp : (m niter : ℕ) → (Fin m → ℝ) → (Fin m → ℝ) → ℕ →
      (Fin m → Fin niter → ℝ))
    (os : (m niter : ℕ) → (Fin m → Fin niter → ℝ) → (Fin m → ℝ) →
      ((Fin m → ℝ × ℝ) × (Fin m → ℝ)))
    (ft : FluxTab n) (pt : PropTab n) (det : Fin n → ℚ) (ad : Bool)
    (d0 : List String) (l : Fin 7) (i : Fin n) (h : i ∉ detectIdx det) :
    (fluxes_derived_prop_nonraw rp os ft pt det ad d0).fluxTabOut.flux l i
        = ft.flux l i ∧
    (fluxes_derived_prop_nonraw rp os ft pt det ad d0).fluxTabOut.rms
        = ft.rms ∧
    (fluxes_derived_prop_nonraw rp os ft pt det ad d0).fluxTabOut.bin_ID
        = ft.bin_ID ∧
    (fluxes_derived_prop_nonraw rp os ft pt det ad d0).propTabOut = pt :=
  ⟨scatter_frame _ _ _ _ h, rfl, rfl, rfl⟩

/-- Witness for C6: a one-bin run whose Detection flag is the marginal
value 0.5, so no row is detected and row 0 keeps its values. -/
theorem pipeline_frame_nondetected_rows_witness :
    ((0 : Fin 1) ∉ detectIdx (fun _ : Fin 1 => (1 / 2 : ℚ))) ∧
    ((fluxes_derived_prop_nonraw testRandomPdf testOneSig testFluxTab
        testPropTab (fun _ : Fin 1 => (1 / 2 : ℚ)) false
        ["HgHb", "HdHb"]).fluxTabOut.flux 0 0 = testFluxTab.flux 0 0 ∧
     (fluxes_derived_prop_nonraw testRandomPdf testOneSig testFluxTab
        testPropTab (fun _ : Fin 1 => (1 / 2 : ℚ)) false
        ["HgHb", "HdHb"]).fluxTabOut.rms = testFluxTab.rms ∧
     (fluxes_derived_prop_nonraw testRandomPdf testOneSig testFluxTab
        testPropTab (fun _ : Fin 1 => (1 / 2 : ℚ)) false
        ["HgHb", "HdHb"]).fluxTabOut.bin_ID = testFluxTab.bin_ID ∧
     (fluxes_derived_prop_nonraw testRandomPdf testOneSig testFluxTab
        testPropTab (fun _ : Fin 1 => (1 / 2 : ℚ)) false
        ["HgHb", "HdHb"]).propTabOut = testPropTab) :=
  ⟨by simp only [mem_detectIdx]; norm_num,
    pipeline_frame_nondetected_rows testRandomPdf testOneSig testFluxTab
      testPropTab (fun _ : Fin 1 => (1 / 2 : ℚ)) false ["HgHb", "HdHb"] 0 0
      (by simp only [mem_detectIdx]; norm_num)⟩

/-- C7.  An object index participates (is in `detect_idx`, line 73 of
`error_prop.py`) exactly when its validation-table Detection flag
equals 1; every other flag value, 0.5 included, is excluded. -/
theorem detect_idx_iff_flag_one {n : ℕ} (detection : Fin n → ℚ)
    (i : Fin n) : i ∈ detectIdx detection ↔ detection i = 1 :=
  mem_detectIdx detection i

/-- C8 (counterexample).  The claim covers the boundary case
`-log10(R) - 0.92506 = 0` (it uses `<= 0`): there `temp_calculation`
returns +inf (`0.0 ** negative` in numpy), not NaN.  Exhibited at
`R = 10 ** (-0.92506)`, which satisfies the claim's hypotheses. -/
theorem temp_calculation_boundary_not_nan :
    0 < (10 : ℝ) ^ (-(0.92506 : ℝ)) ∧
    -Real.logb 10 ((10 : ℝ) ^ (-(0.92506 : ℝ))) - 0.92506 ≤ 0 ∧
    temp_calculation (NpVal.fin ((10 : ℝ) ^ (-(0.92506 : ℝ)))) = NpVal.pinf ∧
    temp_calculation (NpVal.fin ((10 : ℝ) ^ (-(0.92506 : ℝ)))) ≠ NpVal.nan := by
  have hr : (0 : ℝ) < (10 : ℝ) ^ (-(0.92506 : ℝ)) :=
    Real.rpow_pos_of_pos (by norm_num) _
  have hb : Real.logb 10 ((10 : ℝ) ^ (-(0.92506 : ℝ))) = -0.92506 :=
    Real.logb_rpow (by norm_num) (by norm_num)
  have hmain : temp_calculation (NpVal.fin ((10 : ℝ) ^ (-(0.92506 : ℝ))))
      = NpVal.pinf := by
    unfold temp_calculation
    have hl : (NpVal.fin ((10 : ℝ) ^ (-(0.92506 : ℝ)))).log10
        = NpVal.fin (-0.92506 : ℝ) := by
      simp [NpVal.log10, not_lt_of_gt hr, hr.ne', hb]
    rw [hl]
    have h2 : -(NpVal.fin (-0.92506 : ℝ)) - NpVal.fin tmc_b
        = NpVal.fin 0 := by
      simp [sub_eq_add_neg, tmc_b]
    rw [h2]
    have h3 : (NpVal.fin (0 : ℝ)).powNC (-1 * tmc_c) = NpVal.pinf := by
      simp [NpVal.powNC]
    rw [h3]
    show NpVal.mul (NpVal.fin tmc_a) NpVal.pinf = NpVal.pinf
    simp [NpVal.mul, tmc_a]
  refine ⟨hr, by rw [hb]; norm_num, hmain, by rw [hmain]; simp⟩

/-- C8 (amended).  For every `R > 0` with `-log10(R) - 0.92506`
strictly negative, `temp_calculation` yields NaN for that entry (the
embedding is a total function: numpy only warns, it never raises), and
a NaN temperature entry propagates as NaN through all five dependent
metallicity quantities at that index.  At exactly
`-log10(R) - 0.92506 = 0` the result is +inf instead. -/
theorem temp_calculation_nan_strict :
    (∀ r : ℝ, 0 < r → -Real.logb 10 r - 0.92506 < 0 →
      temp_calculation (NpVal.fin r) = NpVal.nan) ∧
    (∀ (n : ℕ) (T_e TWO_BETA THREE_BETA : Fin n → NpVal)
      (det3 : List (Fin n)) (i : Fin n), i ∈ det3 → T_e i = NpVal.nan →
      (metallicity_calculation T_e TWO_BETA THREE_BETA (some det3)).com_O_log i
          = NpVal.nan ∧
      (metallicity_calculation T_e TWO_BETA THREE_BETA (some det3)).O_s_ion_log i
          = NpVal.nan ∧
      (metallicity_calculation T_e TWO_BETA THREE_BETA (some det3)).O_d_ion_log i
          = NpVal.nan ∧
      (metallicity_calculation T_e TWO_BETA THREE_BETA (some det3)).O_s_ion i
          = NpVal.nan ∧
      (metallicity_calculation T_e TWO_BETA THREE_BETA (some det3)).O_d_ion i
          = NpVal.nan) := by
  constructor
  · intro r hr hneg
    unfold temp_calculation
    have hl : (NpVal.fin r).log10 = NpVal.fin (Real.logb 10 r) := by
      simp [NpVal.log10, not_lt_of_gt hr, hr.ne']
    rw [hl]
    have h2 : -(NpVal.fin (Real.logb 10 r)) - NpVal.fin tmc_b
        = NpVal.fin (-Real.logb 10 r - tmc_b) := by
      simp [sub_eq_add_neg]
    rw [h2]
    have hlt : -Real.logb 10 r - tmc_b < 0 := by
      simpa [tmc_b] using hneg
    have h3 : (NpVal.fin (-Real.logb 10 r - tmc_b)).powNC (-1 * tmc_c)
        = NpVal.nan := by
      simp only [NpVal.powNC]
      rw [if_pos hlt]
    rw [h3]
    simp
  · intro n T_e TWO_BETA THREE_BETA det3 i hi hT
    refine ⟨?_, ?_, ?_, ?_, ?_⟩ <;>
      simp [metallicity_calculation, if_pos hi, hT]

/-- Witness for C8: `R = 1` (whose base `-0 - 0.92506` is strictly
negative) yields NaN, and a NaN temperature at a `det3` index makes the
total `12+log(O/H)` NaN there. -/
theorem temp_calculation_nan_strict_witness :
    temp_calculation (NpVal.fin 1) = NpVal.nan ∧
    (metallicity_calculation (fun _ : Fin 1 => NpVal.nan)
        (fun _ => NpVal.fin 2) (fun _ => NpVal.fin 8)
        (some [0])).com_O_log 0 = NpVal.nan :=
  ⟨temp_calculation_nan_strict.1 1 one_pos
      (by simp [Real.logb_one]; norm_num),
    (temp_calculation_nan_strict.2 1 (fun _ => NpVal.nan)
      (fun _ => NpVal.fin 2) (fun _ => NpVal.fin 8) [0] 0
      (by simp) rfl).1⟩

/-- C9 (counterexample).  A single `flux_ratios` call with
`binned_data=True` mutates the module-global dust column-name list
`dust0` (lines 24-25 of `ratios.py`), so the constant vocabularies are
not all immutable. -/
theorem flux_ratios_mutates_dust0 :
    (flux_ratios testEmptyFluxDict true true ["HgHb", "HdHb"]).2
      ≠ ["HgHb", "HdHb"] := by
  have he : (flux_ratios testEmptyFluxDict true true ["HgHb", "HdHb"]).2
      = dustComposite ["HgHb", "HdHb"] := rfl
  rw [he]
  decide

/-- C9 (amended).  The line-name lists and the reddening lookup
`k_dict` are never written by any operation (they are embedded as Lean
constants), and `flux_ratios` with `binned_data=False` (the value every
`error_prop.py` call site uses) leaves `dust0` unchanged; but every
`flux_ratios` call with `binned_data=True` appends `'_composite'` to
the first two entries of `dust0`, mutating the shared list. -/
theorem flux_ratios_dust0_state :
    (∀ (ι : Type) (fd : FluxDict ι) (gR : Bool) (d0 : List String),
      (flux_ratios fd false gR d0).2 = d0) ∧
    (∀ (ι : Type) (fd : FluxDict ι) (gR : Bool) (d0 : List String),
      (flux_ratios fd true gR d0).2 = dustComposite d0) :=
  ⟨fun _ _ _ _ => rfl, fun _ _ _ _ => rfl⟩

/-- C10.  Omitting `det3` (passing `None`) makes
`metallicity_calculation` compute every index: the result coincides
with passing the full index range `np.arange(len(T_e))`. -/
theorem metallicity_det3_none_eq_full_range {n : ℕ}
    (T_e TWO_BETA THREE_BETA : Fin n → NpVal) :
    metallicity_calculation T_e TWO_BETA THREE_BETA none =
      metallicity_calculation T_e TWO_BETA THREE_BETA
        (some (List.finRange n)) := rfl
